import Mathlib

/-!
Verification development for the terminal-agent repository.

The definitions below are a shallow embedding of the Python source:
- string helpers mirroring the Python `str` methods used by the code
  (`strip`, `split`, `lower`, `splitlines`, `startswith`, substring test),
  implemented structurally over `String.data` so that the kernel can
  evaluate them on concrete inputs;
- resolved filesystem paths as lists of components (an absolute,
  symlink-free path `/a/b` is `["a", "b"]`); `Path.resolve` is external
  filesystem behaviour and enters the model as an oracle function
  `resolve : String → List String`;
- the policy validator from `middleware/shell_policy.py`;
- the persistent-session wrapper from `middleware/shell_session.py`;
- the batch executors `bash_tool` / `powershell_tool` from
  `tools/shell/bash.py` and `tools/shell/powershell.py`, with the
  subprocess and session behaviour abstracted as oracles;
- the approval-decision handling of the two CLI entry points
  (`main.py` and `src/terminal_agent/main.py`).
-/

/-- Python `str.isspace` characters relevant here (ASCII whitespace). -/
def isPySpace (c : Char) : Bool :=
  c = ' ' || c = '\t' || c = '\n' || c = '\r' || c = '\x0b' || c = '\x0c'

/-- Strip leading and trailing whitespace from a character list. -/
def stripList (l : List Char) : List Char :=
  ((l.dropWhile isPySpace).reverse.dropWhile isPySpace).reverse

/-- Python `s.strip()`. -/
def pyStrip (s : String) : String :=
  ⟨stripList s.data⟩

/-- Helper for `pySplitWs`: accumulate the current token while scanning. -/
def splitWsAux : List Char → List Char → List String
  | [], cur => if cur.isEmpty then [] else [⟨cur.reverse⟩]
  | c :: rest, cur =>
    if isPySpace c then
      if cur.isEmpty then splitWsAux rest [] else ⟨cur.reverse⟩ :: splitWsAux rest []
    else
      splitWsAux rest (c :: cur)

/-- Python `s.split()` with no argument: split on whitespace runs, no empties. -/
def pySplitWs (s : String) : List String :=
  splitWsAux s.data []

/-- Lower-case one ASCII character, as Python `str.lower` does for ASCII. -/
def lowerChar (c : Char) : Char :=
  if 65 ≤ c.toNat ∧ c.toNat ≤ 90 then Char.ofNat (c.toNat + 32) else c

/-- Python `s.lower()` (ASCII fragment). -/
def pyLower (s : String) : String :=
  ⟨s.data.map lowerChar⟩

/-- Split a character list on newline characters; n newlines give n+1 pieces. -/
def splitOnNl : List Char → List (List Char)
  | [] => [[]]
  | '\n' :: rest => [] :: splitOnNl rest
  | c :: rest =>
    match splitOnNl rest with
    | [] => [[c]]
    | p :: ps => (c :: p) :: ps

/-- Python `s.splitlines()` restricted to the `\n` separator: the empty
string gives `[]`, and a trailing newline does not produce a final empty
line. -/
def pySplitLines (s : String) : List String :=
  if s.data = [] then []
  else
    let ps := splitOnNl s.data
    let ps := if s.data.getLast? = some '\n' then ps.dropLast else ps
    ps.map (fun l => ⟨l⟩)

/-- Python `sep.join(xs)`. -/
def pyJoin (sep : String) : List String → String
  | [] => ""
  | [x] => x
  | x :: xs => x ++ sep ++ pyJoin sep xs

/-- Python `s.startswith(p)`. -/
def pyStartsWith (s p : String) : Bool :=
  p.data.isPrefixOf s.data

/-- Substring test on character lists, mirroring the Python `in` operator. -/
def listContainsSub (pat : List Char) : List Char → Bool
  | [] => pat.isEmpty
  | c :: rest => pat.isPrefixOf (c :: rest) || listContainsSub pat rest

/-- Python `pat in s` for strings. -/
def pyContains (s pat : String) : Bool :=
  listContainsSub pat.data s.data

/-- Decidable membership of a string in a list, mirroring Python `in`. -/
def strMem (v : String) : List String → Bool
  | [] => false
  | x :: xs => if x = v then true else strMem v xs

/-- `any(d.lower() == v for d in l)` from the PowerShell branch of the
policy validator (`v` is already lower-cased by the caller). -/
def anyLowerEq (v : String) : List String → Bool
  | [] => false
  | d :: ds => if pyLower d = v then true else anyLowerEq v ds

/-! ## Resolved paths

A resolved absolute path is its list of components: `/sandbox/sub` is
`["sandbox", "sub"]` and the filesystem root `/` is `[]`. On resolved
absolute paths, both `os.path.commonpath([root, p]) == root` (used by the
shell tools) and `p.is_relative_to(root)` (used by the policy middleware)
hold exactly when the components of `root` are a prefix of those of `p`. -/

abbrev PathC := List String

/-- Componentwise containment of a resolved path under a resolved root. -/
def isUnder : PathC → PathC → Bool
  | [], _ => true
  | _ :: _, [] => false
  | r :: rs, p :: ps => if r = p then isUnder rs ps else false

/-- Render a resolved path back to its string form (`str(path)`). -/
def pathStr (p : PathC) : String :=
  "/" ++ pyJoin "/" p

/-- The sandbox re-clamp performed by both shell tools after resolving a
working directory: inside the root the path is kept, outside it is
replaced by the root itself (`bash.py` lines 106-109 and 190-193,
`powershell.py` lines 111-114 and 196-199). -/
def clampToRoot (enforce : Bool) (rootR p : PathC) : PathC :=
  if enforce then (if isUnder rootR p then p else rootR) else p

/-! ## Policy validator (`middleware/shell_policy.py`) -/

/-- `ShellPolicyConfig.enforce_mode` values. -/
inductive EnforceMode where
  | auto_block
  | warn_only
  | defer_to_hitl
deriving DecidableEq

/-- `ShellPolicyConfig` from `shell_policy.py`; `root_dir` is stored here
already resolved to components (the code resolves it at each use). -/
structure ShellPolicyConfig where
  allowed_bash : List String
  dangerous_bash : List String
  allowed_pwsh : List String
  dangerous_pwsh : List String
  root_dir : PathC
  enforce_root_jail : Bool
  max_command_len : Nat
  enforce_mode : EnforceMode

/-- `ShellPolicyMiddleware._first_token`: the first whitespace-delimited
token of the trimmed command, `""` for blank commands. -/
def first_token (cmd : String) : String :=
  if pyStrip cmd = "" then "" else (pySplitWs (pyStrip cmd)).headD ""

/-- `ShellPolicyMiddleware._within_root`: when jailing is disabled every
directory passes; otherwise the resolved cwd must be the root or nested
under it (`Path.is_relative_to` on resolved paths). -/
def within_root (cfg : ShellPolicyConfig) (cwd : PathC) : Bool :=
  if cfg.enforce_root_jail then isUnder cfg.root_dir cwd else true

/-- Deny-list membership check exactly as the code performs it:
case-insensitive for PowerShell, case-sensitive for Bash. -/
def inDeny (cfg : ShellPolicyConfig) (powershell : Bool) (verb : String) : Bool :=
  if powershell then anyLowerEq (pyLower verb) cfg.dangerous_pwsh
  else strMem verb cfg.dangerous_bash

/-- Allow-list membership check exactly as the code performs it. -/
def inAllow (cfg : ShellPolicyConfig) (powershell : Bool) (verb : String) : Bool :=
  if powershell then anyLowerEq (pyLower verb) cfg.allowed_pwsh
  else strMem verb cfg.allowed_bash

/-- `ShellPolicyMiddleware._validate_command`: empty check, length check,
deny-list, allow-list, then sandbox containment, short-circuiting on the
first failure and returning `(allowed, reason)`. -/
def validate_command (cfg : ShellPolicyConfig) (cmd : String) (powershell : Bool)
    (cwd : PathC) : Bool × String :=
  if pyStrip cmd = "" then
    (false, "Empty command.")
  else if cfg.max_command_len < cmd.data.length then
    (false, "Command too long (> " ++ toString cfg.max_command_len ++ ").")
  else
    let verb := first_token cmd
    let verdict : Option String :=
      if powershell then
        if anyLowerEq (pyLower verb) cfg.dangerous_pwsh then
          some ("Dangerous command \x27" ++ verb ++ "\x27.")
        else if anyLowerEq (pyLower verb) cfg.allowed_pwsh then none
        else some ("\x27" ++ verb ++ "\x27 not in allowed PowerShell commands.")
      else
        if strMem verb cfg.dangerous_bash then
          some ("Dangerous command \x27" ++ verb ++ "\x27.")
        else if strMem verb cfg.allowed_bash then none
        else some ("\x27" ++ verb ++ "\x27 not in allowed Bash commands.")
    match verdict with
    | some r => (false, r)
    | none =>
      if within_root cfg cwd then (true, "")
      else
        (false, "CWD \x27" ++ pathStr cwd ++ "\x27 is outside sandbox \x27"
          ++ pathStr cfg.root_dir ++ "\x27.")

/-! ## Persistent shell session (`middleware/shell_session.py`)

`_ShellSession` wraps a long-lived subprocess. Its externally visible
behaviour on one `run` call is modelled by a `ShellSession` value: whether
`stdin` is available, whether the write raises (broken pipe to a dead
process, message carried in `write_error`), the lines the background pump
will deliver within the read window, and the number of 0.1 s polls the
deadline allows. A raised exception is the `Except.error` branch. -/

structure ShellSession where
  stdin_open : Bool
  write_error : Option String
  queued : List String
  poll_budget : Nat

/-- The polling read loop of `_ShellSession.run` (lines 89-98): drain
queued lines until one contains the sentinel or the deadline elapses;
whatever has been collected is returned. -/
def drainLoop (sentinel : String) : Nat → List String → String → String
  | 0, _, buf => buf
  | fuel + 1, [], buf => drainLoop sentinel fuel [] buf
  | fuel + 1, line :: rest, buf =>
    if pyContains line sentinel then buf ++ line
    else drainLoop sentinel fuel rest (buf ++ line)

/-- `_ShellSession.run` (lines 71-99): if stdin is unavailable it returns
the `"[session closed]"` sentinel string instead of raising; a failing
write raises; otherwise the read loop collects output. The per-call
sentinel (derived from a timestamp in the code) is a parameter. -/
def ShellSession.run (s : ShellSession) (sentinel command : String) :
    Except String String :=
  if !s.stdin_open then Except.ok "[session closed]"
  else
    match s.write_error with
    | some e => Except.error e
    | none =>
      let _ := command
      Except.ok (drainLoop sentinel s.poll_budget s.queued "")

/-! ## Batch executors (`tools/shell/bash.py`, `tools/shell/powershell.py`)

Both tools share the same structure: resolve and clamp the starting cwd,
then for each command wrap it with a cd prefix and a marker suffix, run it
through the persistent session (if any) or a one-shot subprocess, parse
the output at the marker to recover the new cwd, re-resolve and re-clamp
it, and stop at the first non-zero returncode. The pieces the operating
system supplies are oracles in `ExecEnv`. -/

structure CommandResult where
  cmd : String
  returncode : Int
  stdout : String
  stderr : String
  cwd : String
deriving DecidableEq

structure ToolResult where
  success : Bool
  results : List CommandResult
  cwd : String
deriving DecidableEq

/-- Outcome of `subprocess.run` in the one-shot fallback: either the
process completed with captured output and exit code, or
`TimeoutExpired` was raised carrying any partial output. -/
inductive SubprocOutcome where
  | completed (stdout stderr : String) (returncode : Int)
  | timedOut (pOut pErr : Option String)

/-- External behaviour consumed by a tool invocation: `resolve` is
`Path(s).resolve()`, `session` is the attached persistent session
(`session.run` on the wrapped command, raising as `Except.error`), and
`subproc` is the one-shot subprocess keyed by wrapped command and cwd. -/
structure ExecEnv where
  resolve : String → PathC
  session : Option (String → Except String String)
  subproc : String → String → SubprocOutcome

/-- Tool-side policy fields read from module-level `POLICY`;
`root_r` is `POLICY.root_dir.resolve()` as components. -/
structure ToolPolicy where
  root_r : PathC
  enforce_root_jail : Bool

def BASH_MARKER : String := "__CWD_MARKER__9bb2e5c7__"

def PS_MARKER : String := "__CWD_MARKER__6f2a1d4b__"

/-- `bash.py` line 129: `f"cd {cwd} && {cmd}; echo {_MARKER}; pwd"`. -/
def bashWrap (cmd : String) (cwd : PathC) : String :=
  "cd " ++ pathStr cwd ++ " && " ++ cmd ++ "; echo " ++ BASH_MARKER ++ "; pwd"

/-- `powershell.py` lines 135-137. -/
def psWrap (cmd : String) (cwd : PathC) : String :=
  "Set-Location " ++ pathStr cwd ++ "; " ++ cmd ++ "; Write-Output "
    ++ PS_MARKER ++ "; (Get-Location).Path"

/-- Session-or-subprocess dispatch inside `_run_bash` / `_run_ps`
(bash.py lines 132-162): a session result is recorded with exit code 0
and empty stderr; a session exception gives exit code 1 and a
`[SESSION ERROR]` stderr; a subprocess timeout gives exit code 124 with
`[TIMEOUT]` appended to the partial stderr. Returns (stdout, stderr, rc). -/
def rawExec (env : ExecEnv) (wrapped cwdS : String) : String × String × Int :=
  match env.session with
  | some run =>
    match run wrapped with
    | Except.ok out => (out, "", 0)
    | Except.error e => ("", "[SESSION ERROR] " ++ e, 1)
  | none =>
    match env.subproc wrapped cwdS with
    | SubprocOutcome.completed o e rc => (o, e, rc)
    | SubprocOutcome.timedOut pOut pErr =>
      (pyStrip (pOut.getD ""), pyStrip ((pErr.getD "") ++ "\n[TIMEOUT]"), 124)

/-- First index of `x` in `l` (Python `list.index`, 0 when absent). -/
def idxOf (x : String) : List String → Nat
  | [] => 0
  | y :: ys => if y = x then 0 else idxOf x ys + 1

/-- Marker-based output parsing (bash.py lines 164-173): everything
before the marker line is the command output; the line after it, if
present and non-blank after stripping, is the new cwd. Returns
(output lines, new cwd). -/
def parseMarker (marker stdout cwdS : String) : List String × String :=
  let lines := pySplitLines stdout
  if strMem marker lines then
    let idx := idxOf marker lines
    let output_lines := lines.take idx
    let new_cwd :=
      if idx + 1 < lines.length then
        let cand := pyStrip (lines.getD (idx + 1) "")
        if cand = "" then cwdS else cand
      else cwdS
    (output_lines, new_cwd)
  else (lines, cwdS)

/-- One command through `_run_bash` / `_run_ps`: wrap, execute, parse,
and build the per-command result record (bash.py lines 119-181). -/
def runOne (wrap : String → PathC → String) (marker : String) (env : ExecEnv)
    (cmd : String) (cwd : PathC) : CommandResult :=
  let wrapped := wrap cmd cwd
  let (stdout, stderr, rc) := rawExec env wrapped (pathStr cwd)
  let (output_lines, new_cwd) := parseMarker marker stdout (pathStr cwd)
  { cmd := cmd
    returncode := rc
    stdout := pyStrip (pyJoin "\n" output_lines)
    stderr := pyStrip stderr
    cwd := new_cwd }

/-- The command loop of both tools (bash.py lines 184-199): run each
command at the current cwd, append its result, re-resolve and re-clamp
the reported cwd, and return early with `success := false` on the first
non-zero returncode. -/
def execLoop (wrap : String → PathC → String) (marker : String) (env : ExecEnv)
    (P : ToolPolicy) : List String → PathC → List CommandResult → ToolResult
  | [], cwd, acc => ⟨true, acc.reverse, pathStr cwd⟩
  | c :: rest, cwd, acc =>
    let res := runOne wrap marker env c cwd
    let next := clampToRoot P.enforce_root_jail P.root_r (env.resolve res.cwd)
    if res.returncode ≠ 0 then ⟨false, (res :: acc).reverse, pathStr next⟩
    else execLoop wrap marker env P rest next (res :: acc)

/-- The sequence of working directories at which the loop actually runs
each command: the command that fails is still run (at its cwd), commands
after it are not. -/
def cwdTrace (wrap : String → PathC → String) (marker : String) (env : ExecEnv)
    (P : ToolPolicy) : List String → PathC → List PathC
  | [], _ => []
  | c :: rest, cwd =>
    let res := runOne wrap marker env c cwd
    let next := clampToRoot P.enforce_root_jail P.root_r (env.resolve res.cwd)
    if res.returncode ≠ 0 then [cwd]
    else cwd :: cwdTrace wrap marker env P rest next

/-- Starting-cwd resolution shared by both tools (bash.py lines 102-109):
the caller-supplied directory if non-empty, else the policy root, then
resolved and clamped to the root when jailing is on. -/
def startCwd (env : ExecEnv) (P : ToolPolicy) (cwd : Option String) : PathC :=
  let c0 :=
    match cwd with
    | some s => if s = "" then P.root_r else env.resolve s
    | none => P.root_r
  clampToRoot P.enforce_root_jail P.root_r c0

/-- `bash_tool` (bash.py lines 79-199). The pydantic validator rejects a
batch whose commands are all blank; that surfaces as `Except.error`. -/
def bash_tool (env : ExecEnv) (P : ToolPolicy) (commands : List String)
    (cwd : Option String) : Except String ToolResult :=
  if commands.all (fun c => pyStrip c = "") then
    Except.error "commands must contain at least one non-empty string"
  else
    Except.ok (execLoop bashWrap BASH_MARKER env P commands (startCwd env P cwd) [])

/-- `powershell_tool` (powershell.py lines 84-205), same loop with the
PowerShell wrapping and marker. -/
def powershell_tool (env : ExecEnv) (P : ToolPolicy) (commands : List String)
    (cwd : Option String) : Except String ToolResult :=
  if commands.all (fun c => pyStrip c = "") then
    Except.error "commands must contain at least one non-empty string"
  else
    Except.ok (execLoop psWrap PS_MARKER env P commands (startCwd env P cwd) [])

/-! ## `ShellPolicyMiddleware.after_model` (`shell_policy.py` lines 167-249)

The hook logs token usage, then validates each shell tool call; on a
violation it branches on the enforcement mode, and every branch — as well
as every other path — returns `None`, leaving the agent state untouched.
The model returns the (never produced) jump directive together with the
updated token counters; `None` is `Option.none`. The function is total,
so no exception (in particular no `ShellPolicyViolation`) can escape. -/

structure PolicyCounters where
  total_input_tokens : Nat
  total_output_tokens : Nat
  total_calls : Nat
deriving DecidableEq

structure ToolCallRec where
  name : String
  commands : List String
  cwd : String

structure MsgRec where
  is_ai : Bool
  usage : Option (Nat × Nat)
  tool_calls : List ToolCallRec

structure AgentStateRec where
  messages : List MsgRec

/-- A `{"jump_to": ...}` directive; `after_model` never constructs one. -/
structure JumpDirective where
  jump_to : String
deriving DecidableEq

/-- `_log_token_usage` (lines 138-165): add the usage of an AI message to
the running totals when usage metadata is present. -/
def log_token_usage (c : PolicyCounters) (usage : Option (Nat × Nat)) :
    PolicyCounters :=
  match usage with
  | none => c
  | some (i, o) => ⟨c.total_input_tokens + i, c.total_output_tokens + o,
      c.total_calls + 1⟩

/-- The inner command loop of `after_model` (lines 217-246): the reason of
the first command failing validation, if any. -/
def first_violation (cfg : ShellPolicyConfig) (powershell : Bool) (cwd : PathC) :
    List String → Option String
  | [] => none
  | cmd :: rest =>
    let v := validate_command cfg cmd powershell cwd
    if v.1 then first_violation cfg powershell cwd rest else some v.2

/-- The tool-call loop of `after_model` (lines 207-246): shell tool calls
are validated; on the first violation the hook returns early, branching on
the enforcement mode — and every mode branch returns `None`. -/
def check_tool_calls (cfg : ShellPolicyConfig) (resolve : String → PathC) :
    List ToolCallRec → Option JumpDirective
  | [] => none
  | tc :: rest =>
    if tc.name = "bash_tool" ∨ tc.name = "powershell_tool" then
      let powershell := tc.name = "powershell_tool"
      let cwd := resolve tc.cwd
      match first_violation cfg powershell cwd tc.commands with
      | some _ =>
        match cfg.enforce_mode with
        | EnforceMode.auto_block => none
        | EnforceMode.warn_only => none
        | EnforceMode.defer_to_hitl => none
      | none => check_tool_calls cfg resolve rest
    else check_tool_calls cfg resolve rest

/-- `after_model` (lines 167-249): log usage of the last message if it is
an AI message, then validate tool calls; returns the optional jump
directive and the updated counters. -/
def after_model (cfg : ShellPolicyConfig) (resolve : String → PathC)
    (c : PolicyCounters) (state : AgentStateRec) :
    Option JumpDirective × PolicyCounters :=
  match state.messages.getLast? with
  | none => (none, c)
  | some last =>
    let c1 := if last.is_ai then log_token_usage c last.usage else c
    if last.tool_calls.isEmpty then (none, c1)
    else (check_tool_calls cfg resolve last.tool_calls, c1)

/-! ## Approval decisions of the two CLI entry points

`src/terminal_agent/main.py` builds resume payloads through
`build_resume_payload`; the top-level demo `main.py` builds them inline.
The decision item is modelled by its `type` field plus the optional
`tool` and `response` fields (the `edit` branch of the demo also carries
an `args` object whose construction is orthogonal to the decision type
and is not modelled). -/

structure DecisionItem where
  type : String
  tool : Option String
  response : Option String
deriving DecidableEq

structure ResumePayload where
  decisions : List DecisionItem
deriving DecidableEq

/-- `build_resume_payload` from `src/terminal_agent/main.py` lines 53-75:
any decision other than "approve" — including the explicit fallback
branch — produces a reject item. -/
def build_resume_payload (decision : String) (tool_name : String) : ResumePayload :=
  if decision = "approve" then ⟨[⟨"approve", some tool_name, none⟩]⟩
  else if decision = "reject" then ⟨[⟨"reject", some tool_name, none⟩]⟩
  else ⟨[⟨"reject", some tool_name, none⟩]⟩

/-- The decision prompt of `src/terminal_agent/main.py` lines 180-189:
input is stripped and lower-cased; a leading "a" approves, a leading "r"
rejects, anything else falls through to reject. -/
def pkg_resume_payload (rawInput : String) (tool_name : String) : ResumePayload :=
  let decision := pyLower (pyStrip rawInput)
  if pyStartsWith decision "a" then build_resume_payload "approve" tool_name
  else if pyStartsWith decision "r" then build_resume_payload "reject" tool_name
  else build_resume_payload "reject" tool_name

/-- The decision prompt of the top-level demo `main.py` lines 122-169:
leading "a" approves, "e" edits, "i" rejects, "r" rejects with a manual
response — and the final fallback for unrecognized input builds an
approve payload ("Unrecognized decision; defaulting to approve."). -/
def demo_resume_payload (rawInput : String) (manualResp : String) : ResumePayload :=
  let decision := pyLower (pyStrip rawInput)
  if pyStartsWith decision "a" then ⟨[⟨"approve", none, none⟩]⟩
  else if pyStartsWith decision "e" then ⟨[⟨"edit", none, none⟩]⟩
  else if pyStartsWith decision "i" then ⟨[⟨"reject", none, none⟩]⟩
  else if pyStartsWith decision "r" then ⟨[⟨"reject", none, some manualResp⟩]⟩
  else ⟨[⟨"approve", none, none⟩]⟩

/-! ## Concrete environments used by witnesses and counterexamples -/

/-- A resolution oracle for a filesystem containing `/etc` and `/sandbox`. -/
def resolveDemo : String → PathC := fun s =>
  if s = "/etc" then ["etc"]
  else if s = "/sandbox" then ["sandbox"]
  else []

/-- Tool policy with root `/sandbox` and jailing enabled. -/
def sandboxPolicy : ToolPolicy := ⟨["sandbox"], true⟩

/-- Subprocess oracle: any command whose text contains `tB` exits 1, all
others succeed and report `/sandbox` after the marker. -/
def subprocDemo : String → String → SubprocOutcome := fun w _ =>
  if pyContains w "tB" then SubprocOutcome.completed "" "" 1
  else SubprocOutcome.completed ("out\n" ++ BASH_MARKER ++ "\n/sandbox") "" 0

/-- Fallback-path environment (no persistent session). -/
def envDemo : ExecEnv := ⟨resolveDemo, none, subprocDemo⟩

/-- A session whose stdin is unavailable. -/
def sessClosed : ShellSession := ⟨false, none, [], 0⟩

/-- Environment whose persistent session has a closed stdin. -/
def envClosed : ExecEnv :=
  ⟨resolveDemo, some (fun w => sessClosed.run "__END_0__" w), subprocDemo⟩

/-- The batch contract shared by both shell tools: on success one result
per command, all with returncode 0; on failure the results are exactly
the commands up to and including the first failing one, whose returncode
is non-zero — later commands are never executed. -/
def BatchSpec (commands : List String) (out : ToolResult) : Prop :=
  (out.success = true →
    out.results.map CommandResult.cmd = commands ∧
    ∀ r ∈ out.results, r.returncode = 0)
  ∧ (out.success = false →
    ∃ pre last, out.results = pre ++ [last] ∧
      (∀ r ∈ pre, r.returncode = 0) ∧ last.returncode ≠ 0 ∧
      pre.length + 1 ≤ commands.length ∧
      out.results.map CommandResult.cmd = commands.take (pre.length + 1))

/-- The concrete failing batch of the specification example: `tA` exits 0,
`tB` exits 1, `tC` would exit 0 but never runs. -/
def outDemoBash : ToolResult :=
  ⟨false, [⟨"tA", 0, "out", "", "/sandbox"⟩, ⟨"tB", 1, "", "", "/sandbox"⟩],
    "/sandbox"⟩

/-- Config for the C7 counterexample: `rm` is in the Bash deny-list and
absent from the (empty) allow-list. -/
def cfgDenyOnly : ShellPolicyConfig :=
  ⟨[], ["rm"], [], [], ["sandbox"], false, 8000, EnforceMode.auto_block⟩

/-- Environment whose persistent session raises on every write, as a dead
shell process does. -/
def envDead : ExecEnv :=
  ⟨resolveDemo, some (fun _ => Except.error "BrokenPipeError"), subprocDemo⟩

/-- An environment whose one-shot subprocess always times out with some
partial output captured. -/
def envTimeout : ExecEnv :=
  ⟨resolveDemo, none,
    fun _ _ => SubprocOutcome.timedOut (some "par\ntial") (some "boom")⟩

/-! ## Helper lemmas -/

theorem isUnder_refl (p : PathC) : isUnder p p = true := by
  induction p with
  | nil => rfl
  | cons a l ih => simp [isUnder, ih]

theorem clampToRoot_isUnder (root p : PathC) :
    isUnder root (clampToRoot true root p) = true := by
  unfold clampToRoot
  by_cases h : isUnder root p = true
  · simp [h]
  · simp [eq_false_of_ne_true h, isUnder_refl]

theorem clampToRoot_outside (root p : PathC) (h : isUnder root p = false) :
    clampToRoot true root p = root := by
  simp [clampToRoot, h]

theorem startCwd_isUnder (env : ExecEnv) (P : ToolPolicy) (cwd : Option String)
    (h : P.enforce_root_jail = true) :
    isUnder P.root_r (startCwd env P cwd) = true := by
  unfold startCwd
  rw [h]
  exact clampToRoot_isUnder _ _

theorem runOne_cmd (w : String → PathC → String) (m : String) (env : ExecEnv)
    (c : String) (cwd : PathC) : (runOne w m env c cwd).cmd = c := rfl

theorem execLoop_append (w : String → PathC → String) (m : String) (env : ExecEnv)
    (P : ToolPolicy) (cmds : List String) :
    ∀ (cwd : PathC) (acc : List CommandResult),
      execLoop w m env P cmds cwd acc =
        ⟨(execLoop w m env P cmds cwd []).success,
         acc.reverse ++ (execLoop w m env P cmds cwd []).results,
         (execLoop w m env P cmds cwd []).cwd⟩ := by
  induction cmds with
  | nil => intro cwd acc; simp [execLoop]
  | cons c rest ih =>
    intro cwd acc
    by_cases h : (runOne w m env c cwd).returncode = 0
    · simp only [execLoop, h]
      rw [ih _ (runOne w m env c cwd :: acc), ih _ [runOne w m env c cwd]]
      simp
    · simp [execLoop, h]

theorem execLoop_sound (w : String → PathC → String) (m : String) (env : ExecEnv)
    (P : ToolPolicy) (cmds : List String) :
    ∀ cwd : PathC,
      ((execLoop w m env P cmds cwd []).success = true →
        (execLoop w m env P cmds cwd []).results.map CommandResult.cmd = cmds ∧
        ∀ r ∈ (execLoop w m env P cmds cwd []).results, r.returncode = 0)
    ∧ ((execLoop w m env P cmds cwd []).success = false →
        ∃ pre last, (execLoop w m env P cmds cwd []).results = pre ++ [last] ∧
          (∀ r ∈ pre, r.returncode = 0) ∧ last.returncode ≠ 0 ∧
          pre.length + 1 ≤ cmds.length ∧
          (execLoop w m env P cmds cwd []).results.map CommandResult.cmd
            = cmds.take (pre.length + 1)) := by
  induction cmds with
  | nil =>
    intro cwd
    constructor
    · intro _; simp [execLoop]
    · intro hfalse; simp [execLoop] at hfalse
  | cons c rest ih =>
    intro cwd
    by_cases h : (runOne w m env c cwd).returncode = 0
    · have hloop : execLoop w m env P (c :: rest) cwd [] =
          ⟨(execLoop w m env P rest
              (clampToRoot P.enforce_root_jail P.root_r
                (env.resolve (runOne w m env c cwd).cwd)) []).success,
           [runOne w m env c cwd] ++
             (execLoop w m env P rest
               (clampToRoot P.enforce_root_jail P.root_r
                 (env.resolve (runOne w m env c cwd).cwd)) []).results,
           (execLoop w m env P rest
             (clampToRoot P.enforce_root_jail P.root_r
               (env.resolve (runOne w m env c cwd).cwd)) []).cwd⟩ := by
        conv_lhs => simp only [execLoop, h]
        rw [execLoop_append]
        simp
      set next := clampToRoot P.enforce_root_jail P.root_r
        (env.resolve (runOne w m env c cwd).cwd) with hnext
      constructor
      · intro hs
        rw [hloop] at hs ⊢
        simp only at hs
        obtain ⟨hmap, hall⟩ := (ih next).1 hs
        constructor
        · simp [hmap, runOne_cmd]
        · intro r hr
          simp only [List.mem_append, List.mem_singleton] at hr
          rcases hr with hr | hr
          · rw [hr]; exact h
          · exact hall r hr
      · intro hs
        rw [hloop] at hs ⊢
        simp only at hs
        obtain ⟨pre, last, hres, hpre, hlast, hlen, hmap⟩ := (ih next).2 hs
        refine ⟨runOne w m env c cwd :: pre, last, ?_, ?_, hlast, ?_, ?_⟩
        · simp [hres]
        · intro r hr
          rcases List.mem_cons.mp hr with hr | hr
          · rw [hr]; exact h
          · exact hpre r hr
        · simpa using Nat.succ_le_succ hlen
        · simp [hres, runOne_cmd, List.take_succ_cons]
          simp [hres] at hmap
          exact hmap
    · have hloop : execLoop w m env P (c :: rest) cwd [] =
          ⟨false, [runOne w m env c cwd],
           pathStr (clampToRoot P.enforce_root_jail P.root_r
             (env.resolve (runOne w m env c cwd).cwd))⟩ := by
        simp [execLoop, h]
      constructor
      · intro hs; rw [hloop] at hs; simp at hs
      · intro _
        refine ⟨[], runOne w m env c cwd, by simp [hloop], by simp, h, ?_, ?_⟩
        · simp
        · simp [hloop, runOne_cmd]

theorem cwdTrace_isUnder (w : String → PathC → String) (m : String) (env : ExecEnv)
    (P : ToolPolicy) (h : P.enforce_root_jail = true) (cmds : List String) :
    ∀ cwd : PathC, isUnder P.root_r cwd = true →
      ∀ d ∈ cwdTrace w m env P cmds cwd, isUnder P.root_r d = true := by
  induction cmds with
  | nil => intro cwd _ d hd; simp [cwdTrace] at hd
  | cons c rest ih =>
    intro cwd hcwd d hd
    by_cases hrc : (runOne w m env c cwd).returncode = 0
    · simp only [cwdTrace, hrc] at hd
      simp at hd
      rcases hd with hd | hd
      · rw [hd]; exact hcwd
      · refine ih _ ?_ d hd
        rw [h]
        exact clampToRoot_isUnder _ _
    · simp only [cwdTrace, hrc] at hd
      simp [hrc] at hd
      rw [hd]; exact hcwd

theorem execLoop_results_eq_trace (w : String → PathC → String) (m : String)
    (env : ExecEnv) (P : ToolPolicy) (cmds : List String) :
    ∀ cwd : PathC,
      (execLoop w m env P cmds cwd []).results
        = ((cmds.take (cwdTrace w m env P cmds cwd).length).zip
            (cwdTrace w m env P cmds cwd)).map
              (fun p => runOne w m env p.1 p.2) := by
  induction cmds with
  | nil => intro cwd; simp [execLoop, cwdTrace]
  | cons c rest ih =>
    intro cwd
    by_cases h : (runOne w m env c cwd).returncode = 0
    · have hloop : execLoop w m env P (c :: rest) cwd [] =
          ⟨(execLoop w m env P rest
              (clampToRoot P.enforce_root_jail P.root_r
                (env.resolve (runOne w m env c cwd).cwd)) []).success,
           [runOne w m env c cwd] ++
             (execLoop w m env P rest
               (clampToRoot P.enforce_root_jail P.root_r
                 (env.resolve (runOne w m env c cwd).cwd)) []).results,
           (execLoop w m env P rest
             (clampToRoot P.enforce_root_jail P.root_r
               (env.resolve (runOne w m env c cwd).cwd)) []).cwd⟩ := by
        conv_lhs => simp only [execLoop, h]
        rw [execLoop_append]
        simp
      have htr : cwdTrace w m env P (c :: rest) cwd =
          cwd :: cwdTrace w m env P rest
            (clampToRoot P.enforce_root_jail P.root_r
              (env.resolve (runOne w m env c cwd).cwd)) := by
        simp only [cwdTrace, h]
        simp
      rw [hloop, htr]
      simp only [List.length_cons, List.take_succ_cons, List.zip_cons_cons,
        List.map_cons]
      rw [ih]
      simp
    · have hloop : execLoop w m env P (c :: rest) cwd [] =
          ⟨false, [runOne w m env c cwd],
           pathStr (clampToRoot P.enforce_root_jail P.root_r
             (env.resolve (runOne w m env c cwd).cwd))⟩ := by
        simp [execLoop, h]
      have htr : cwdTrace w m env P (c :: rest) cwd = [cwd] := by
        simp [cwdTrace, h]
      rw [hloop, htr]
      simp

theorem execLoop_cwd_isUnder (w : String → PathC → String) (m : String)
    (env : ExecEnv) (P : ToolPolicy) (h : P.enforce_root_jail = true)
    (cmds : List String) :
    ∀ (cwd : PathC) (acc : List CommandResult), isUnder P.root_r cwd = true →
      ∃ q, (execLoop w m env P cmds cwd acc).cwd = pathStr q ∧
        isUnder P.root_r q = true := by
  induction cmds with
  | nil => intro cwd acc hcwd; exact ⟨cwd, rfl, hcwd⟩
  | cons c rest ih =>
    intro cwd acc hcwd
    by_cases hrc : (runOne w m env c cwd).returncode = 0
    · simp only [execLoop, hrc]
      simp
      refine ih _ _ ?_
      rw [h]
      exact clampToRoot_isUnder _ _
    · simp only [execLoop, hrc]
      simp [hrc]
      refine ⟨clampToRoot P.enforce_root_jail P.root_r
        (env.resolve (runOne w m env c cwd).cwd), rfl, ?_⟩
      rw [h]
      exact clampToRoot_isUnder _ _

theorem bash_tool_ok (env : ExecEnv) (P : ToolPolicy) (commands : List String)
    (cwd : Option String) (out : ToolResult)
    (h : bash_tool env P commands cwd = Except.ok out) :
    out = execLoop bashWrap BASH_MARKER env P commands (startCwd env P cwd) [] := by
  unfold bash_tool at h
  by_cases hb : commands.all (fun c => pyStrip c = "") = true
  · simp [hb] at h
  · simp [hb] at h
    exact h.symm

theorem powershell_tool_ok (env : ExecEnv) (P : ToolPolicy) (commands : List String)
    (cwd : Option String) (out : ToolResult)
    (h : powershell_tool env P commands cwd = Except.ok out) :
    out = execLoop psWrap PS_MARKER env P commands (startCwd env P cwd) [] := by
  unfold powershell_tool at h
  by_cases hb : commands.all (fun c => pyStrip c = "") = true
  · simp [hb] at h
  · simp [hb] at h
    exact h.symm

/-- C1: with sandbox jailing enabled, every working directory the batch
runs a command at, and the final cwd reported by `bash_tool` or
`powershell_tool`, is a resolved path equal to the sandbox root or nested
under it; a resolved path outside the root is replaced by the root itself
rather than rejected, and in particular a starting cwd of `/etc` with
root `/sandbox` is clamped to `/sandbox`. -/
theorem sandbox_jail_invariant (env : ExecEnv) (P : ToolPolicy)
    (commands : List String) (cwd : Option String)
    (h : P.enforce_root_jail = true) :
    (∀ out, bash_tool env P commands cwd = Except.ok out →
      ∃ q, out.cwd = pathStr q ∧ isUnder P.root_r q = true)
  ∧ (∀ out, powershell_tool env P commands cwd = Except.ok out →
      ∃ q, out.cwd = pathStr q ∧ isUnder P.root_r q = true)
  ∧ (∀ d ∈ cwdTrace bashWrap BASH_MARKER env P commands (startCwd env P cwd),
      isUnder P.root_r d = true)
  ∧ (∀ d ∈ cwdTrace psWrap PS_MARKER env P commands (startCwd env P cwd),
      isUnder P.root_r d = true)
  ∧ (∀ out, bash_tool env P commands cwd = Except.ok out →
      out.results
        = ((commands.take
              (cwdTrace bashWrap BASH_MARKER env P commands
                (startCwd env P cwd)).length).zip
            (cwdTrace bashWrap BASH_MARKER env P commands (startCwd env P cwd))).map
              (fun p => runOne bashWrap BASH_MARKER env p.1 p.2))
  ∧ (∀ p, isUnder P.root_r p = false → clampToRoot true P.root_r p = P.root_r)
  ∧ startCwd envDemo sandboxPolicy (some "/etc") = ["sandbox"] := by
  have hstart := startCwd_isUnder env P cwd h
  refine ⟨?_, ?_, ?_, ?_, ?_, ?_, by decide⟩
  · intro out hout
    rw [bash_tool_ok env P commands cwd out hout]
    exact execLoop_cwd_isUnder _ _ env P h commands _ [] hstart
  · intro out hout
    rw [powershell_tool_ok env P commands cwd out hout]
    exact execLoop_cwd_isUnder _ _ env P h commands _ [] hstart
  · exact cwdTrace_isUnder _ _ env P h commands _ hstart
  · exact cwdTrace_isUnder _ _ env P h commands _ hstart
  · intro out hout
    rw [bash_tool_ok env P commands cwd out hout]
    exact execLoop_results_eq_trace bashWrap BASH_MARKER env P commands _
  · exact fun p hp => clampToRoot_outside P.root_r p hp

/-- Witness for C1 at a concrete input: a batch started at `/etc` under
root `/sandbox` with jailing enabled. -/
theorem sandbox_jail_invariant_witness :
    ((∀ out, bash_tool envDemo sandboxPolicy ["tA"] (some "/etc") = Except.ok out →
      ∃ q, out.cwd = pathStr q ∧ isUnder sandboxPolicy.root_r q = true)
  ∧ (∀ out, powershell_tool envDemo sandboxPolicy ["tA"] (some "/etc") = Except.ok out →
      ∃ q, out.cwd = pathStr q ∧ isUnder sandboxPolicy.root_r q = true)
  ∧ (∀ d ∈ cwdTrace bashWrap BASH_MARKER envDemo sandboxPolicy ["tA"]
        (startCwd envDemo sandboxPolicy (some "/etc")),
      isUnder sandboxPolicy.root_r d = true)
  ∧ (∀ d ∈ cwdTrace psWrap PS_MARKER envDemo sandboxPolicy ["tA"]
        (startCwd envDemo sandboxPolicy (some "/etc")),
      isUnder sandboxPolicy.root_r d = true)
  ∧ (∀ out, bash_tool envDemo sandboxPolicy ["tA"] (some "/etc") = Except.ok out →
      out.results
        = ((["tA"].take
              (cwdTrace bashWrap BASH_MARKER envDemo sandboxPolicy ["tA"]
                (startCwd envDemo sandboxPolicy (some "/etc"))).length).zip
            (cwdTrace bashWrap BASH_MARKER envDemo sandboxPolicy ["tA"]
              (startCwd envDemo sandboxPolicy (some "/etc")))).map
              (fun p => runOne bashWrap BASH_MARKER envDemo p.1 p.2))
  ∧ (∀ p, isUnder sandboxPolicy.root_r p = false →
      clampToRoot true sandboxPolicy.root_r p = sandboxPolicy.root_r)
  ∧ startCwd envDemo sandboxPolicy (some "/etc") = ["sandbox"])
  ∧ startCwd envDemo sandboxPolicy (some "/etc") = ["sandbox"] :=
  ⟨sandbox_jail_invariant envDemo sandboxPolicy ["tA"] (some "/etc") rfl, by decide⟩

/-- C2: for every batch run by `bash_tool` or `powershell_tool`,
execution stops at the first command with a non-zero returncode — the
result then has `success = false` and contains exactly the results up to
and including the failing command — and a batch whose commands all return
0 yields `success = true` with one result per command. -/
theorem batch_first_failure_stops (env : ExecEnv) (P : ToolPolicy)
    (commands : List String) (cwd : Option String) :
    (∀ out, bash_tool env P commands cwd = Except.ok out → BatchSpec commands out)
  ∧ (∀ out, powershell_tool env P commands cwd = Except.ok out →
      BatchSpec commands out) := by
  constructor
  · intro out hout
    rw [bash_tool_ok env P commands cwd out hout]
    exact execLoop_sound bashWrap BASH_MARKER env P commands _
  · intro out hout
    rw [powershell_tool_ok env P commands cwd out hout]
    exact execLoop_sound psWrap PS_MARKER env P commands _

/-- Witness for C2: on the batch `[tA (rc 0), tB (rc 1), tC (rc 0)]` the
tool returns `success = false` with results exactly `[tA, tB]`. -/
theorem batch_first_failure_stops_witness :
    bash_tool envDemo sandboxPolicy ["tA", "tB", "tC"] none = Except.ok outDemoBash
  ∧ outDemoBash.success = false
  ∧ outDemoBash.results.map CommandResult.cmd = ["tA", "tB"]
  ∧ BatchSpec ["tA", "tB", "tC"] outDemoBash :=
  ⟨rfl, rfl, rfl,
    (batch_first_failure_stops envDemo sandboxPolicy ["tA", "tB", "tC"] none).1
      outDemoBash rfl⟩

theorem isPrefixOf_append_weaken {l m t : List Char} (h : l.isPrefixOf m = true) :
    l.isPrefixOf (m ++ t) = true := by
  induction l generalizing m with
  | nil => simp [List.isPrefixOf]
  | cons a l ih =>
    cases m with
    | nil => simp [List.isPrefixOf] at h
    | cons b m =>
      simp only [List.isPrefixOf, Bool.and_eq_true] at h
      simp only [List.cons_append, List.isPrefixOf, Bool.and_eq_true]
      exact ⟨h.1, ih h.2⟩

theorem pyStartsWith_append (a b p : String) (h : pyStartsWith a p = true) :
    pyStartsWith (a ++ b) p = true := by
  unfold pyStartsWith at *
  exact isPrefixOf_append_weaken h

/-- C3: a non-empty command within the length limit whose verb is in the
deny-list for the shell kind — matched case-insensitively for PowerShell
and case-sensitively for Bash — is rejected with a reason mentioning
"Dangerous", regardless of allow-list membership (which the theorem does
not constrain). -/
theorem deny_list_rejects (cfg : ShellPolicyConfig) (cmd : String)
    (powershell : Bool) (cwd : PathC)
    (h1 : ¬ pyStrip cmd = "")
    (h2 : cmd.data.length ≤ cfg.max_command_len)
    (h3 : inDeny cfg powershell (first_token cmd) = true) :
    validate_command cfg cmd powershell cwd
      = (false, "Dangerous command \x27" ++ first_token cmd ++ "\x27.")
  ∧ pyStartsWith (validate_command cfg cmd powershell cwd).2 "Dangerous" = true := by
  have hval : validate_command cfg cmd powershell cwd
      = (false, "Dangerous command \x27" ++ first_token cmd ++ "\x27.") := by
    unfold validate_command
    rw [if_neg h1, if_neg (Nat.not_lt.mpr h2)]
    cases powershell with
    | true =>
      simp only [inDeny] at h3
      simp only [if_true] at h3
      simp [h3]
    | false =>
      simp only [inDeny] at h3
      simp only [Bool.false_eq_true, if_false] at h3
      simp [h3]
  refine ⟨hval, ?_⟩
  rw [hval]
  exact pyStartsWith_append _ _ _
    (pyStartsWith_append _ _ _ (by decide))

/-- Witness for C3: `rm -rf /` with `rm` in the Bash deny-list (and also
in the allow-list, showing deny wins). -/
theorem deny_list_rejects_witness :
    validate_command
      ⟨["ls", "rm"], ["rm"], [], [], ["sandbox"], true, 8000, .auto_block⟩
      "rm -rf /" false ["sandbox"]
      = (false, "Dangerous command \x27rm\x27.")
  ∧ pyStartsWith
      (validate_command
        ⟨["ls", "rm"], ["rm"], [], [], ["sandbox"], true, 8000, .auto_block⟩
        "rm -rf /" false ["sandbox"]).2 "Dangerous" = true :=
  deny_list_rejects _ "rm -rf /" false ["sandbox"]
    (by decide) (by decide) (by decide)

/-- C4: with jailing enabled the containment check of the validator
passes exactly for resolved working directories equal to the sandbox root
or nested under it; a resolved directory outside the root makes
`_validate_command` reject with the sandbox reason (once the earlier
checks pass); with jailing disabled every directory passes. -/
theorem sandbox_containment_check (cfg : ShellPolicyConfig) (cmd : String)
    (powershell : Bool) (cwd : PathC) :
    (cfg.enforce_root_jail = true →
      (within_root cfg cwd = true ↔ isUnder cfg.root_dir cwd = true))
  ∧ (cfg.enforce_root_jail = false → within_root cfg cwd = true)
  ∧ (cfg.enforce_root_jail = true → isUnder cfg.root_dir cwd = false →
      ¬ pyStrip cmd = "" → cmd.data.length ≤ cfg.max_command_len →
      inDeny cfg powershell (first_token cmd) = false →
      inAllow cfg powershell (first_token cmd) = true →
      validate_command cfg cmd powershell cwd
        = (false, "CWD \x27" ++ pathStr cwd ++ "\x27 is outside sandbox \x27"
            ++ pathStr cfg.root_dir ++ "\x27.")) := by
  refine ⟨?_, ?_, ?_⟩
  · intro hj
    unfold within_root
    rw [hj]
    simp
  · intro hj
    unfold within_root
    rw [hj]
    simp
  · intro hj hout h1 h2 hdeny hallow
    have hwr : within_root cfg cwd = false := by
      unfold within_root
      rw [hj]
      simpa using hout
    unfold validate_command
    rw [if_neg h1, if_neg (Nat.not_lt.mpr h2)]
    cases powershell with
    | true =>
      simp only [inDeny] at hdeny
      simp only [inAllow] at hallow
      simp only [if_true] at hdeny hallow
      simp [hdeny, hallow, hwr]
    | false =>
      simp only [inDeny] at hdeny
      simp only [inAllow] at hallow
      simp only [Bool.false_eq_true, if_false] at hdeny hallow
      simp [hdeny, hallow, hwr]

/-- Witness for C4: jailing enabled with root `/sandbox` and cwd `/etc`
(rejected with the sandbox reason for an allowed verb), and jailing
disabled passing the same outside directory. -/
theorem sandbox_containment_check_witness :
    (within_root ⟨["ls"], [], [], [], ["sandbox"], true, 8000, .auto_block⟩
        ["etc"] = true ↔ isUnder ["sandbox"] ["etc"] = true)
  ∧ validate_command ⟨["ls"], [], [], [], ["sandbox"], true, 8000, .auto_block⟩
      "ls -la" false ["etc"]
      = (false, "CWD \x27/etc\x27 is outside sandbox \x27/sandbox\x27.")
  ∧ within_root ⟨["ls"], [], [], [], ["sandbox"], false, 8000, .auto_block⟩
      ["etc"] = true :=
  ⟨(sandbox_containment_check _ "ls -la" false ["etc"]).1 rfl,
   (sandbox_containment_check
      ⟨["ls"], [], [], [], ["sandbox"], true, 8000, .auto_block⟩
      "ls -la" false ["etc"]).2.2 rfl (by decide) (by decide) (by decide)
      (by decide) (by decide),
   (sandbox_containment_check _ "ls -la" false ["etc"]).2.1 rfl⟩

theorem parseMarker_empty (m c : String) : parseMarker m "" c = ([], c) := by
  unfold parseMarker
  have h : pySplitLines "" = [] := rfl
  rw [h]
  simp [strMem]

theorem listContainsSub_append_right (pat x y : List Char)
    (h : listContainsSub pat y = true) : listContainsSub pat (x ++ y) = true := by
  induction x with
  | nil => simpa using h
  | cons c cs ih =>
    simp only [List.cons_append, listContainsSub, Bool.or_eq_true]
    exact Or.inr ih

theorem pyContains_append_right (a b pat : String) (h : pyContains b pat = true) :
    pyContains (a ++ b) pat = true := by
  unfold pyContains at *
  exact listContainsSub_append_right pat.data a.data b.data h

/-- Counterexample to C7 as stated: `rm -rf x` is non-empty, within the
length limit, and its verb `rm` is absent from the allow-list — yet
because `rm` is also in the deny-list, the deny check fires first and the
reason says "Dangerous command", not "not in allowed". -/
theorem allow_list_reason_counterexample :
    strMem "rm" cfgDenyOnly.allowed_bash = false
  ∧ ¬ pyStrip "rm -rf x" = ""
  ∧ ("rm -rf x" : String).data.length ≤ cfgDenyOnly.max_command_len
  ∧ validate_command cfgDenyOnly "rm -rf x" false []
      = (false, "Dangerous command \x27rm\x27.")
  ∧ pyContains "Dangerous command \x27rm\x27." "not in allowed" = false := by
  refine ⟨rfl, by decide, by decide, by decide, by decide⟩

/-- C7 amended: a non-empty command within the length limit whose verb is
absent from the allow-list **and also absent from the deny-list** is
rejected with the "not in allowed" reason (a verb in the deny-list is
instead rejected as dangerous). -/
theorem allow_list_rejects (cfg : ShellPolicyConfig) (cmd : String)
    (powershell : Bool) (cwd : PathC)
    (h1 : ¬ pyStrip cmd = "")
    (h2 : cmd.data.length ≤ cfg.max_command_len)
    (hdeny : inDeny cfg powershell (first_token cmd) = false)
    (hallow : inAllow cfg powershell (first_token cmd) = false) :
    validate_command cfg cmd powershell cwd
      = (false, if powershell then
          "\x27" ++ first_token cmd ++ "\x27 not in allowed PowerShell commands."
        else
          "\x27" ++ first_token cmd ++ "\x27 not in allowed Bash commands.")
  ∧ pyContains (validate_command cfg cmd powershell cwd).2 "not in allowed"
      = true := by
  have hval : validate_command cfg cmd powershell cwd
      = (false, if powershell then
          "\x27" ++ first_token cmd ++ "\x27 not in allowed PowerShell commands."
        else
          "\x27" ++ first_token cmd ++ "\x27 not in allowed Bash commands.") := by
    unfold validate_command
    rw [if_neg h1, if_neg (Nat.not_lt.mpr h2)]
    cases powershell with
    | true =>
      simp only [inDeny] at hdeny
      simp only [inAllow] at hallow
      simp only [if_true] at hdeny hallow
      simp [hdeny, hallow]
    | false =>
      simp only [inDeny] at hdeny
      simp only [inAllow] at hallow
      simp only [Bool.false_eq_true, if_false] at hdeny hallow
      simp [hdeny, hallow]
  refine ⟨hval, ?_⟩
  rw [hval]
  cases powershell with
  | true =>
    simp only [if_true]
    exact pyContains_append_right ("\x27" ++ first_token cmd)
      "\x27 not in allowed PowerShell commands." "not in allowed" (by decide)
  | false =>
    simp only [Bool.false_eq_true, if_false]
    exact pyContains_append_right ("\x27" ++ first_token cmd)
      "\x27 not in allowed Bash commands." "not in allowed" (by decide)

/-- Witness for the amended C7: `git status` with a config whose
allow-list is `["ls"]` and deny-list `["rm"]`. -/
theorem allow_list_rejects_witness :
    validate_command
      ⟨["ls"], ["rm"], [], [], ["sandbox"], false, 8000, .auto_block⟩
      "git status" false []
      = (false, "\x27git\x27 not in allowed Bash commands.")
  ∧ pyContains
      (validate_command
        ⟨["ls"], ["rm"], [], [], ["sandbox"], false, 8000, .auto_block⟩
        "git status" false []).2 "not in allowed" = true := by
  have h := allow_list_rejects
    ⟨["ls"], ["rm"], [], [], ["sandbox"], false, 8000, .auto_block⟩
    "git status" false [] (by decide) (by decide) (by decide) (by decide)
  exact ⟨by rw [h.1]; rfl, h.2⟩

/-- Counterexample to C5 as stated: when the session stdin is closed
("closed pipe"), `_ShellSession.run` returns the `"[session closed]"`
sentinel instead of raising, so the recorded result has returncode 0 and
empty stderr — not the synthetic exit code 1 — and the batch continues
to the next command instead of halting. -/
theorem session_closed_pipe_counterexample :
    ShellSession.run sessClosed "__END_0__" (bashWrap "ls" ["sandbox"])
      = Except.ok "[session closed]"
  ∧ bash_tool envClosed sandboxPolicy ["ls", "pwd"] none =
      Except.ok ⟨true,
        [⟨"ls", 0, "[session closed]", "", "/sandbox"⟩,
         ⟨"pwd", 0, "[session closed]", "", "/sandbox"⟩], "/sandbox"⟩ :=
  ⟨rfl, rfl⟩

/-- C5 amended: when `session.run` raises (dead process, failing write),
the recorded result carries synthetic exit code 1 with a
`[SESSION ERROR]` stderr and the batch halts at that command; a closed
stdin instead yields the `[session closed]` sentinel without raising, and
the command is then recorded with exit code 0 (see the counterexample). -/
theorem session_error_exit_code (env : ExecEnv) (P : ToolPolicy)
    (sess : String → Except String String) (cmd : String) (rest : List String)
    (cwd : PathC) (e : String)
    (hs : env.session = some sess)
    (he : sess (bashWrap cmd cwd) = Except.error e) :
    runOne bashWrap BASH_MARKER env cmd cwd
      = ⟨cmd, 1, "", pyStrip ("[SESSION ERROR] " ++ e), pathStr cwd⟩
  ∧ execLoop bashWrap BASH_MARKER env P (cmd :: rest) cwd []
      = ⟨false, [⟨cmd, 1, "", pyStrip ("[SESSION ERROR] " ++ e), pathStr cwd⟩],
          pathStr (clampToRoot P.enforce_root_jail P.root_r
            (env.resolve (pathStr cwd)))⟩ := by
  have h1 : rawExec env (bashWrap cmd cwd) (pathStr cwd)
      = ("", "[SESSION ERROR] " ++ e, 1) := by
    simp only [rawExec, hs, he]
  have hres : runOne bashWrap BASH_MARKER env cmd cwd
      = ⟨cmd, 1, "", pyStrip ("[SESSION ERROR] " ++ e), pathStr cwd⟩ := by
    unfold runOne
    simp only [h1, parseMarker_empty]
    rfl
  refine ⟨hres, ?_⟩
  simp only [execLoop, hres]
  norm_num

/-- Witness for the amended C5: a raising session records exit code 1
with the `[SESSION ERROR]` stderr and the two-command batch halts after
the first command. -/
theorem session_error_exit_code_witness :
    runOne bashWrap BASH_MARKER envDead "ls" ["sandbox"]
      = ⟨"ls", 1, "", pyStrip ("[SESSION ERROR] " ++ "BrokenPipeError"),
          pathStr ["sandbox"]⟩
  ∧ execLoop bashWrap BASH_MARKER envDead sandboxPolicy ["ls", "pwd"] ["sandbox"] []
      = ⟨false, [⟨"ls", 1, "", pyStrip ("[SESSION ERROR] " ++ "BrokenPipeError"),
          pathStr ["sandbox"]⟩],
          pathStr (clampToRoot sandboxPolicy.enforce_root_jail sandboxPolicy.root_r
            (envDead.resolve (pathStr ["sandbox"])))⟩ :=
  session_error_exit_code envDead sandboxPolicy
    (fun _ => Except.error "BrokenPipeError") "ls" ["pwd"] ["sandbox"]
    "BrokenPipeError" rfl rfl

theorem runOne_session_ok (w : String → PathC → String) (m : String)
    (env : ExecEnv) (sess : String → Except String String)
    (hs : env.session = some sess) (cmd : String) (cwd : PathC) (out : String)
    (hok : sess (w cmd cwd) = Except.ok out) :
    (runOne w m env cmd cwd).returncode = 0
  ∧ (runOne w m env cmd cwd).stderr = "" := by
  have h1 : rawExec env (w cmd cwd) (pathStr cwd) = (out, "", 0) := by
    simp only [rawExec, hs, hok]
  unfold runOne
  simp only [h1]
  refine ⟨?_, ?_⟩ <;> trivial

theorem execLoop_all_zero (w : String → PathC → String) (m : String)
    (env : ExecEnv) (P : ToolPolicy)
    (hz : ∀ cmd cwd, (runOne w m env cmd cwd).returncode = 0)
    (commands : List String) :
    ∀ cwd, (execLoop w m env P commands cwd []).success = true
      ∧ (execLoop w m env P commands cwd []).results.length
          = commands.length := by
  induction commands with
  | nil => intro cwd; simp [execLoop]
  | cons c rest ih =>
    intro cwd
    have h := hz c cwd
    have hloop : execLoop w m env P (c :: rest) cwd [] =
        ⟨(execLoop w m env P rest
            (clampToRoot P.enforce_root_jail P.root_r
              (env.resolve (runOne w m env c cwd).cwd)) []).success,
         [runOne w m env c cwd] ++
           (execLoop w m env P rest
             (clampToRoot P.enforce_root_jail P.root_r
               (env.resolve (runOne w m env c cwd).cwd)) []).results,
         (execLoop w m env P rest
           (clampToRoot P.enforce_root_jail P.root_r
             (env.resolve (runOne w m env c cwd).cwd)) []).cwd⟩ := by
      conv_lhs => simp only [execLoop, h]
      rw [execLoop_append]
      simp
    rw [hloop]
    simp only [List.length_append, List.length_singleton]
    have := ih (clampToRoot P.enforce_root_jail P.root_r
      (env.resolve (runOne w m env c cwd).cwd))
    exact ⟨this.1, by simp [this.2, Nat.add_comm]⟩

/-- C10: whenever a command executes through a persistent session and
`session.run` returns without raising — including the
`"[session closed]"` sentinel and the partial or empty output returned
when the read deadline elapses — the recorded result has returncode 0 and
empty stderr, so a batch on a persistent session can only halt early when
`session.run` raises: if every call returns, every command of the batch
runs and the batch succeeds. -/
theorem session_ok_always_rc_zero (env : ExecEnv) (P : ToolPolicy)
    (sess : String → Except String String) (hs : env.session = some sess) :
    (∀ cmd cwd out, sess (bashWrap cmd cwd) = Except.ok out →
      (runOne bashWrap BASH_MARKER env cmd cwd).returncode = 0
      ∧ (runOne bashWrap BASH_MARKER env cmd cwd).stderr = "")
  ∧ (∀ cmd cwd out, sess (psWrap cmd cwd) = Except.ok out →
      (runOne psWrap PS_MARKER env cmd cwd).returncode = 0
      ∧ (runOne psWrap PS_MARKER env cmd cwd).stderr = "")
  ∧ ((∀ x, ∃ o, sess x = Except.ok o) →
      ∀ commands cwd,
        (execLoop bashWrap BASH_MARKER env P commands cwd []).success = true
        ∧ (execLoop bashWrap BASH_MARKER env P commands cwd []).results.length
            = commands.length)
  ∧ (∀ (s : ShellSession) (sentinel c : String), s.stdin_open = false →
      ShellSession.run s sentinel c = Except.ok "[session closed]") := by
  refine ⟨?_, ?_, ?_, ?_⟩
  · intro cmd cwd out hok
    exact runOne_session_ok bashWrap BASH_MARKER env sess hs cmd cwd out hok
  · intro cmd cwd out hok
    exact runOne_session_ok psWrap PS_MARKER env sess hs cmd cwd out hok
  · intro hall commands cwd
    have hz : ∀ cmd cwd, (runOne bashWrap BASH_MARKER env cmd cwd).returncode = 0 := by
      intro cmd cwd
      obtain ⟨o, ho⟩ := hall (bashWrap cmd cwd)
      exact (runOne_session_ok bashWrap BASH_MARKER env sess hs cmd cwd o ho).1
    exact execLoop_all_zero bashWrap BASH_MARKER env P hz commands cwd
  · intro s sentinel c h
    unfold ShellSession.run
    simp [h]

/-- Witness for C10: the closed-stdin session environment; both commands
run, each is recorded with returncode 0 and empty stderr, and the batch
succeeds. -/
theorem session_ok_always_rc_zero_witness :
    (runOne bashWrap BASH_MARKER envClosed "ls" ["sandbox"]).returncode = 0
  ∧ (runOne bashWrap BASH_MARKER envClosed "ls" ["sandbox"]).stderr = ""
  ∧ (execLoop bashWrap BASH_MARKER envClosed sandboxPolicy ["ls", "pwd"]
      ["sandbox"] []).success = true
  ∧ (execLoop bashWrap BASH_MARKER envClosed sandboxPolicy ["ls", "pwd"]
      ["sandbox"] []).results.length = 2 := by
  have h := session_ok_always_rc_zero envClosed sandboxPolicy
    (fun w => sessClosed.run "__END_0__" w) rfl
  have hone := h.1 "ls" ["sandbox"] "[session closed]" rfl
  have hbatch := h.2.2.1 (fun x => ⟨"[session closed]", rfl⟩) ["ls", "pwd"] ["sandbox"]
  exact ⟨hone.1, hone.2, hbatch.1, hbatch.2⟩

/-- `check_tool_calls` returns `None` on every path: the first violation
found branches on the enforcement mode, and all three branches return
`None`; no violation continues the loop, which ends in `None`. -/
theorem check_tool_calls_none (cfg : ShellPolicyConfig) (resolve : String → PathC) :
    ∀ l, check_tool_calls cfg resolve l = none := by
  intro l
  induction l with
  | nil => rfl
  | cons tc rest ih =>
    unfold check_tool_calls
    by_cases hn : (tc.name = "bash_tool" ∨ tc.name = "powershell_tool")
    · rw [if_pos hn]
      cases hv : first_violation cfg (tc.name = "powershell_tool")
          (resolve tc.cwd) tc.commands with
      | some r =>
        simp only [hv]
        cases cfg.enforce_mode <;> rfl
      | none =>
        simp only [hv]
        exact ih
    · rw [if_neg hn]
      exact ih

/-- C6: for every agent state and under every enforcement mode,
`after_model` returns `None` — even when a shell tool call fails
validation. It therefore never raises `ShellPolicyViolation` (the model
is a total function), never returns a `jump_to` directive, and alters
nothing beyond the token-usage counters. -/
theorem after_model_returns_none (cfg : ShellPolicyConfig)
    (resolve : String → PathC) (c : PolicyCounters) (st : AgentStateRec) :
    (after_model cfg resolve c st).1 = none := by
  unfold after_model
  cases hlast : st.messages.getLast? with
  | none => rfl
  | some last =>
    simp only
    by_cases ht : last.tool_calls.isEmpty = true
    · simp [ht]
    · simp [ht, check_tool_calls_none]

/-- C8: on the one-shot subprocess fallback (no persistent session), a
timeout records returncode 124, keeps whatever partial stdout/stderr was
captured (the partial stdout still goes through the marker parse, the
partial stderr is kept verbatim), and appends `[TIMEOUT]` to stderr; the
model is a total function, so nothing propagates as an exception. -/
theorem subprocess_timeout_records_124 (env : ExecEnv) (cmd : String)
    (cwd : PathC) (pOut pErr : Option String)
    (hs : env.session = none) :
    (env.subproc (bashWrap cmd cwd) (pathStr cwd)
        = SubprocOutcome.timedOut pOut pErr →
      (runOne bashWrap BASH_MARKER env cmd cwd).returncode = 124
      ∧ (runOne bashWrap BASH_MARKER env cmd cwd).stderr
          = pyStrip (pyStrip ((pErr.getD "") ++ "\n[TIMEOUT]"))
      ∧ (runOne bashWrap BASH_MARKER env cmd cwd).stdout
          = pyStrip (pyJoin "\n"
              (parseMarker BASH_MARKER (pyStrip (pOut.getD "")) (pathStr cwd)).1))
  ∧ (env.subproc (psWrap cmd cwd) (pathStr cwd)
        = SubprocOutcome.timedOut pOut pErr →
      (runOne psWrap PS_MARKER env cmd cwd).returncode = 124
      ∧ (runOne psWrap PS_MARKER env cmd cwd).stderr
          = pyStrip (pyStrip ((pErr.getD "") ++ "\n[TIMEOUT]"))
      ∧ (runOne psWrap PS_MARKER env cmd cwd).stdout
          = pyStrip (pyJoin "\n"
              (parseMarker PS_MARKER (pyStrip (pOut.getD "")) (pathStr cwd)).1)) := by
  constructor
  · intro hsub
    have h1 : rawExec env (bashWrap cmd cwd) (pathStr cwd)
        = (pyStrip (pOut.getD ""), pyStrip ((pErr.getD "") ++ "\n[TIMEOUT]"), 124) := by
      simp only [rawExec, hs, hsub]
    unfold runOne
    simp only [h1]
    refine ⟨?_, ?_, ?_⟩ <;> trivial
  · intro hsub
    have h1 : rawExec env (psWrap cmd cwd) (pathStr cwd)
        = (pyStrip (pOut.getD ""), pyStrip ((pErr.getD "") ++ "\n[TIMEOUT]"), 124) := by
      simp only [rawExec, hs, hsub]
    unfold runOne
    simp only [h1]
    refine ⟨?_, ?_, ?_⟩ <;> trivial

/-- Witness for C8: concrete timeout with partial stdout `par\ntial` and
partial stderr `boom` — returncode 124, stderr `boom\n[TIMEOUT]`, and the
partial stdout preserved through the marker parse. -/
theorem subprocess_timeout_records_124_witness :
    ((runOne bashWrap BASH_MARKER envTimeout "sleep 60" ["sandbox"]).returncode = 124
  ∧ (runOne bashWrap BASH_MARKER envTimeout "sleep 60" ["sandbox"]).stderr
      = pyStrip (pyStrip ((some "boom").getD "" ++ "\n[TIMEOUT]"))
  ∧ (runOne bashWrap BASH_MARKER envTimeout "sleep 60" ["sandbox"]).stdout
      = pyStrip (pyJoin "\n"
          (parseMarker BASH_MARKER (pyStrip ((some "par\ntial").getD ""))
            (pathStr ["sandbox"])).1))
  ∧ (runOne bashWrap BASH_MARKER envTimeout "sleep 60" ["sandbox"]).stderr
      = "boom\n[TIMEOUT]"
  ∧ (runOne bashWrap BASH_MARKER envTimeout "sleep 60" ["sandbox"]).stdout
      = "par\ntial" :=
  ⟨(subprocess_timeout_records_124 envTimeout "sleep 60" ["sandbox"]
      (some "par\ntial") (some "boom") rfl).1 rfl, by decide, by decide⟩

/-- Counterexample to C9 as stated: at the approval prompt of the
top-level demo entry point `main.py`, the input `zzz` matches none of the
offered decisions (a/e/i/r) yet resolves to an approve payload —
`decisions[0].type` is `"approve"`, not `"reject"`. -/
theorem unrecognized_decision_approves_demo :
    pyStartsWith (pyLower (pyStrip "zzz")) "a" = false
  ∧ pyStartsWith (pyLower (pyStrip "zzz")) "e" = false
  ∧ pyStartsWith (pyLower (pyStrip "zzz")) "i" = false
  ∧ pyStartsWith (pyLower (pyStrip "zzz")) "r" = false
  ∧ (demo_resume_payload "zzz" "").decisions = [⟨"approve", none, none⟩]
  ∧ ("approve" : String) ≠ "reject" := by
  refine ⟨rfl, rfl, rfl, rfl, rfl, by decide⟩

/-- C9 amended: in the packaged CLI (`src/terminal_agent/main.py`), every
decision input not recognized as approve or reject resolves to a reject
resume payload, never approve; the legacy top-level demo `main.py`
instead defaults unrecognized input to approve (see the counterexample). -/
theorem unrecognized_decision_rejects_pkg (s tool : String)
    (ha : pyStartsWith (pyLower (pyStrip s)) "a" = false)
    (hr : pyStartsWith (pyLower (pyStrip s)) "r" = false) :
    (pkg_resume_payload s tool).decisions = [⟨"reject", some tool, none⟩] := by
  unfold pkg_resume_payload
  simp only [ha, hr]
  rfl

/-- Witness for the amended C9: unrecognized input `zzq` at the packaged
prompt resolves to reject. -/
theorem unrecognized_decision_rejects_pkg_witness :
    (pkg_resume_payload "zzq" "bash_tool").decisions
      = [⟨"reject", some "bash_tool", none⟩] :=
  unrecognized_decision_rejects_pkg "zzq" "bash_tool" rfl rfl

